import Mathlib

/-!
Shallow embedding of `make_dinner.py` (TubeChef): a linear pipeline that
searches YouTube for cooking videos, fetches transcripts, asks an LLM to
pick the simplest recipe, and publishes the result to Notion.

External services are modelled by an `Env` of oracles.  Each oracle returns
`Except String a`: `Except.error e` models the Python call raising an
exception with message `e`.  Each embedded function returns the list of
observable events it performs (external calls and printed lines) together
with its result; a result of `Except.error e` means the Python function
let an exception escape.  Printed messages keep the source text with the
leading emoji and surrounding quote characters omitted.
-/

namespace TubeChef

/-- Observable events of one run: external calls and printed lines. -/
inductive Event where
  | searchCall : String → Nat → Event
  | fetchCall : String → Event
  | llmCall : String → Event
  | createPageCall : String → String → Event
  | appendContentCall : String → String → Event
  | printed : String → Event
  deriving DecidableEq, Repr

/-- Oracles for the five external services plus ambient data.
`search` models `youtube.search().list(...).execute()` returning the list
of `videoId` fields; `loadData` models `loader.load_data(ytlinks=[url])`
returning the `doc.text` list; `llmComplete` models `llm.complete(prompt)`
(`Except.ok none` is a falsy response object, `Except.ok (some t)` a truthy
response with `text = t`); `createPage` models the Notion create-page action
with the extracted `data.data.id` (`none` when the nested id is absent);
`appendContent` models the add-page-content action with its `successfull`
flag; `today` models `datetime.today().strftime` of the current date;
`parent_id` models the `NOTION_PAGE_ID` environment value. -/
structure Env where
  search : String → Nat → Except String (List String)
  loadData : String → Except String (List String)
  llmComplete : String → Except String (Option String)
  createPage : String → String → Except String (Option String)
  appendContent : String → String → Except String Bool
  today : String
  parent_id : String

/-- Python truthiness of an optional string: `None` and the empty string
are falsy, any other string is truthy. -/
def pyTruthy : Option String → Bool
  | none => false
  | some s => !s.isEmpty

/-- `search_youtube_videos_api(query, max_results)`: one API call inside a
try block; on exception it logs and returns the empty list, otherwise it
maps each item to a watch URL. -/
def search_youtube_videos_api (env : Env) (query : String) (max_results : Nat) :
    List Event × List String :=
  match env.search query max_results with
  | Except.error e =>
      ([Event.searchCall query max_results,
        Event.printed ("YouTube API request failed: " ++ e)], [])
  | Except.ok items =>
      ([Event.searchCall query max_results],
       items.map fun vid => "https://www.youtube.com/watch?v=" ++ vid)

/-- Python dict assignment `d[k] = v` on an insertion-ordered association
list: an existing key keeps its position and gets the new value, a new key
is appended at the end. -/
def dictInsert : List (String × String) → String → String → List (String × String)
  | [], k, v => [(k, v)]
  | (k', v') :: d, k, v =>
      if k' = k then (k, v) :: d else (k', v') :: dictInsert d k v

/-- Loop body of `get_video_transcripts`: one transcript fetch inside a try
block; on success the joined document texts are stored under the URL, on
exception a warning is printed and the mapping is unchanged. -/
def gvt_step (env : Env) (acc : List Event × List (String × String)) (url : String) :
    List Event × List (String × String) :=
  match env.loadData url with
  | Except.ok docs =>
      (acc.1 ++ [Event.fetchCall url], dictInsert acc.2 url (String.join docs))
  | Except.error e =>
      (acc.1 ++ [Event.fetchCall url,
        Event.printed ("Failed to fetch transcript for " ++ url ++ ": " ++ e)], acc.2)

/-- `get_video_transcripts(video_urls)`: sequential per-URL fetch loop. -/
def get_video_transcripts (env : Env) (video_urls : List String) :
    List Event × List (String × String) :=
  video_urls.foldl (gvt_step env) ([], [])

/-- The fixed system instruction of `select_best_recipe`. -/
def system_instruction : String :=
  "You are a world-class chef and expert in analyzing recipes. Given a transcript from a " ++
  "cooking video, your goal is to select the best recipe based on the shortest cooking time " ++
  "and least complexity. Once selected, generate a structured and easy-to-follow recipe, " ++
  "ensuring it remains concise (under 2000 characters). The recipe should include clear steps, " ++
  "ingredients, and cooking instructions in a logical sequence. At the end of the recipe, provide " ++
  "a reference to the original video."

/-- The full prompt sent to the LLM for a given transcript mapping. -/
def select_prompt (transcripts : List (String × String)) : String :=
  system_instruction ++ "\n\n" ++
    String.intercalate "\n\n"
      (transcripts.map fun p => "Video: " ++ p.1 ++ "\n" ++ p.2)

/-- `select_best_recipe(transcripts)`: returns `none` at once on an empty
mapping, otherwise performs one completion call (not inside a try block, so
an exception escapes) and returns `response.text if response else None`. -/
def select_best_recipe (env : Env) (transcripts : List (String × String)) :
    List Event × Except String (Option String) :=
  if transcripts.isEmpty then
    ([Event.printed "No transcripts available for analysis."], Except.ok none)
  else
    let combined := String.intercalate "\n\n"
      (transcripts.map fun p => "Video: " ++ p.1 ++ "\n" ++ p.2)
    match env.llmComplete (system_instruction ++ "\n\n" ++ combined) with
    | Except.error e =>
        ([Event.llmCall (system_instruction ++ "\n\n" ++ combined)], Except.error e)
    | Except.ok resp =>
        ([Event.llmCall (system_instruction ++ "\n\n" ++ combined)], Except.ok resp)

/-- `create_notion_page(recipe_name, recipe_content)`: create-page call,
falsiness check on the extracted page id, then the append-content call and
a status message.  Neither Notion call is inside a try block, so an
exception escapes. -/
def create_notion_page (env : Env) (recipe_name recipe_content : String) :
    List Event × Except String Unit :=
  let notion_title := "Dinner on " ++ env.today ++ ": " ++ recipe_name
  match env.createPage env.parent_id notion_title with
  | Except.error e =>
      ([Event.createPageCall env.parent_id notion_title], Except.error e)
  | Except.ok pid =>
      if pyTruthy pid then
        let page_id := pid.getD ""
        match env.appendContent page_id recipe_content with
        | Except.error e =>
            ([Event.createPageCall env.parent_id notion_title,
              Event.appendContentCall page_id recipe_content], Except.error e)
        | Except.ok true =>
            ([Event.createPageCall env.parent_id notion_title,
              Event.appendContentCall page_id recipe_content,
              Event.printed ("Recipe " ++ recipe_name ++ " saved in Notion!")],
             Except.ok ())
        | Except.ok false =>
            ([Event.createPageCall env.parent_id notion_title,
              Event.appendContentCall page_id recipe_content,
              Event.printed "Failed to add content."], Except.ok ())
      else
        ([Event.createPageCall env.parent_id notion_title,
          Event.printed "Failed to create Notion page."], Except.ok ())

/-- The character class `[a-zA-Z0-9_-]` of the link pattern. -/
def isWordDashChar (c : Char) : Bool :=
  (('a' ≤ c ∧ c ≤ 'z') ∨ ('A' ≤ c ∧ c ≤ 'Z') ∨ ('0' ≤ c ∧ c ≤ '9')) || c = '_' || c = '-'

/-- The whitespace class `\s` of the pattern, on its ASCII range. -/
def isPySpace (c : Char) : Bool :=
  c = ' ' || c = '\t' || c = '\n' || c = '\r' || c = Char.ofNat 11 || c = Char.ofNat 12

/-- Matches a literal character sequence at the front of the input and
returns the remainder, or `none` when the literal does not match. -/
def dropLit : List Char → List Char → Option (List Char)
  | [], cs => some cs
  | _ :: _, [] => none
  | l :: ls, c :: cs => if c = l then dropLit ls cs else none

/-- The literal head of the pattern, before group 1. -/
def titleLit : List Char := "**Title:** ".toList

/-- The literal between the whitespace run and the video id, including the
fixed URL base that group 2 captures. -/
def linkLit : List Char := "**Link:** https://www.youtube.com/watch?v=".toList

/-- The fixed watch-URL base as characters. -/
def urlBaseLit : List Char := "https://www.youtube.com/watch?v=".toList

/-- One attempt of the pattern
`\x5c*\x5c*Title:\x5c*\x5c* (.*?)\n\s*\x5c*\x5c*Link:\x5c*\x5c* (https://www\.youtube\.com/watch\?v=[a-zA-Z0-9_-]+)`
anchored at the front of the input.  The lazy group 1 together with the
following literal newline forces group 1 to be exactly the run of
non-newline characters up to the first newline; the greedy `\s*` followed
by a non-whitespace literal forces the whitespace run to be maximal; the
final greedy `[a-zA-Z0-9_-]+` takes the maximal nonempty run.  On success
returns (group 1, group 2, remaining input after the match). -/
def matchAt (cs : List Char) : Option (String × String × List Char) :=
  match dropLit titleLit cs with
  | none => none
  | some r1 =>
    let title := r1.takeWhile (fun c => c ≠ '\n')
    match r1.dropWhile (fun c => c ≠ '\n') with
    | [] => none
    | _ :: r3 =>
      match dropLit linkLit (r3.dropWhile isPySpace) with
      | none => none
      | some r5 =>
        let vid := r5.takeWhile isWordDashChar
        if vid.isEmpty then none
        else
          some (String.mk title, String.mk (urlBaseLit ++ vid),
            r5.dropWhile isWordDashChar)

/-- `re.findall` over the input: try a match at each position from left to
right; on success record the group pair and continue after the match, on
failure advance one character.  Each successful match consumes at least the
length of `titleLit`, so `cs.length + 1` units of fuel always suffice. -/
def findallAux : Nat → List Char → List (String × String)
  | 0, _ => []
  | fuel + 1, cs =>
    match matchAt cs with
    | some (t, l, rest) => (t, l) :: findallAux fuel rest
    | none =>
      match cs with
      | [] => []
      | _ :: cs' => findallAux fuel cs'

/-- All (title, link) group pairs of the pattern over the input. -/
def findall (cs : List Char) : List (String × String) :=
  findallAux (cs.length + 1) cs

/-- `extract_video_links(text_response)`: collects links and titles from
the matches, links first. -/
def extract_video_links (text_response : String) : List String × List String :=
  let ms := findall text_response.toList
  (ms.map fun m => m.2, ms.map fun m => m.1)

/-- Decides whether a string is of the form
`https://www.youtube.com/watch?v=` followed by one or more characters of
the class `[a-zA-Z0-9_-]`. -/
def isYoutubeWatchUrl (s : String) : Bool :=
  match dropLit urlBaseLit s.toList with
  | none => false
  | some r => !r.isEmpty && r.all isWordDashChar

/-- `main()`: the driver.  `recipe_name` is the dish name read from
standard input; the two `if not ...: return` early exits are modelled by
the corresponding branches. -/
def main_run (env : Env) (recipe_name : String) : List Event × Except String Unit :=
  let s := search_youtube_videos_api env recipe_name 3
  let ev0 := Event.printed ("Searching for YouTube videos on " ++ recipe_name ++ "...") :: s.1
  if s.2.isEmpty then
    (ev0 ++ [Event.printed "No videos found."], Except.ok ())
  else
    let t := get_video_transcripts env s.2
    let r := select_best_recipe env t.2
    let ev2 := ev0 ++ [Event.printed "Extracting transcripts..."] ++ t.1 ++
      [Event.printed "Selecting the best recipe..."] ++ r.1
    match r.2 with
    | Except.error e => (ev2, Except.error e)
    | Except.ok best =>
      if pyTruthy best then
        let c := create_notion_page env recipe_name (best.getD "")
        let ev3 := ev2 ++ [Event.printed "Saving to Notion..."] ++ c.1
        match c.2 with
        | Except.error e => (ev3, Except.error e)
        | Except.ok _ => (ev3 ++ [Event.printed "Process completed!"], Except.ok ())
      else
        (ev2 ++ [Event.printed "No suitable recipe found."], Except.ok ())

/-- Classifier for transcript-fetch call events. -/
def isFetchEv : Event → Bool
  | Event.fetchCall _ => true
  | _ => false

/-- Classifier for LLM completion call events. -/
def isLlmEv : Event → Bool
  | Event.llmCall _ => true
  | _ => false

/-- Classifier for Notion create-page call events. -/
def isCreatePageEv : Event → Bool
  | Event.createPageCall _ _ => true
  | _ => false

/-- Classifier for Notion append-content call events. -/
def isAppendEv : Event → Bool
  | Event.appendContentCall _ _ => true
  | _ => false

/-- Whether a trace performs a transcript fetch. -/
def hasFetchCall (t : List Event) : Bool := t.any isFetchEv

/-- Whether a trace performs an LLM completion call. -/
def hasLlmCall (t : List Event) : Bool := t.any isLlmEv

/-- Whether a trace performs a Notion create-page call. -/
def hasCreatePageCall (t : List Event) : Bool := t.any isCreatePageEv

/-- Whether a trace performs a Notion append-content call. -/
def hasAppendContentCall (t : List Event) : Bool := t.any isAppendEv

/-- Key list of an insertion-ordered association list. -/
def keys (d : List (String × String)) : List String := d.map Prod.fst

@[simp] lemma keys_nil : keys [] = [] := rfl

@[simp] lemma keys_cons (p : String × String) (d : List (String × String)) :
    keys (p :: d) = p.1 :: keys d := rfl

/-- Membership in the keys after a dict assignment. -/
lemma mem_keys_dictInsert (d : List (String × String)) (k v k' : String) :
    k' ∈ keys (dictInsert d k v) ↔ k' = k ∨ k' ∈ keys d := by
  induction d with
  | nil => simp [dictInsert]
  | cons p d ih =>
    rcases p with ⟨a, b⟩
    by_cases hak : a = k
    · subst hak
      simp [dictInsert]
    · simp [dictInsert, hak, ih]
      tauto

/-- The search step only emits search-call and printed events. -/
lemma search_trace_any (env : Env) (q : String) (n : Nat) (f : Event → Bool)
    (h1 : ∀ a b, f (Event.searchCall a b) = false)
    (h2 : ∀ m, f (Event.printed m) = false) :
    (search_youtube_videos_api env q n).1.any f = false := by
  cases hs : env.search q n <;> simp [search_youtube_videos_api, hs, h1, h2]

/-- The transcript loop only adds fetch-call and printed events. -/
lemma gvt_trace_any (env : Env) (f : Event → Bool)
    (h1 : ∀ u, f (Event.fetchCall u) = false)
    (h2 : ∀ m, f (Event.printed m) = false) :
    ∀ (urls : List String) (acc : List Event × List (String × String)),
      (urls.foldl (gvt_step env) acc).1.any f = acc.1.any f := by
  intro urls
  induction urls with
  | nil => intro acc; rfl
  | cons u us ih =>
    intro acc
    rw [List.foldl_cons, ih]
    cases hl : env.loadData u <;> simp [gvt_step, hl, h1, h2]

/-- The selector only emits printed and LLM call events. -/
lemma select_trace_any (env : Env) (ts : List (String × String)) (f : Event → Bool)
    (h1 : ∀ m, f (Event.printed m) = false)
    (h2 : ∀ p, f (Event.llmCall p) = false) :
    (select_best_recipe env ts).1.any f = false := by
  by_cases hts : ts.isEmpty
  · simp [select_best_recipe, hts, h1]
  · simp only [select_best_recipe, hts, Bool.false_eq_true, if_false]
    cases h : env.llmComplete (system_instruction ++ "\n\n" ++
        String.intercalate "\n\n" (ts.map fun p => "Video: " ++ p.1 ++ "\n" ++ p.2)) <;>
      simp [h2]

/-- When every fetch fails the transcript loop leaves the mapping alone. -/
lemma gvt_allfail (env : Env) (h : ∀ url, ∃ e, env.loadData url = Except.error e) :
    ∀ (urls : List String) (acc : List Event × List (String × String)),
      (urls.foldl (gvt_step env) acc).2 = acc.2 := by
  intro urls
  induction urls with
  | nil => intro acc; rfl
  | cons u us ih =>
    intro acc
    obtain ⟨e, he⟩ := h u
    rw [List.foldl_cons, ih]
    simp [gvt_step, he]

/-- Keys produced by the transcript loop come from the accumulator or the
URL list. -/
lemma gvt_keys_sub (env : Env) :
    ∀ (urls : List String) (acc : List Event × List (String × String)) (k : String),
      k ∈ keys (urls.foldl (gvt_step env) acc).2 → k ∈ keys acc.2 ∨ k ∈ urls := by
  intro urls
  induction urls with
  | nil => intro acc k hk; exact Or.inl hk
  | cons u us ih =>
    intro acc k hk
    rw [List.foldl_cons] at hk
    rcases ih (gvt_step env acc u) k hk with h | h
    · cases hl : env.loadData u with
      | error e => rw [gvt_step, hl] at h; exact Or.inl h
      | ok docs =>
        rw [gvt_step, hl] at h
        rcases (mem_keys_dictInsert acc.2 u (String.join docs) k).mp h with h | h
        · exact Or.inr (by simp [h])
        · exact Or.inl h
    · exact Or.inr (List.mem_cons_of_mem u h)

/-- A URL whose fetch fails is never added to the mapping. -/
lemma gvt_fail_absent (env : Env) (url : String)
    (hf : ∃ e, env.loadData url = Except.error e) :
    ∀ (urls : List String) (acc : List Event × List (String × String)),
      url ∉ keys acc.2 → url ∉ keys (urls.foldl (gvt_step env) acc).2 := by
  intro urls
  induction urls with
  | nil => intro acc h; exact h
  | cons u us ih =>
    intro acc h
    rw [List.foldl_cons]
    apply ih
    by_cases huu : u = url
    · subst huu
      obtain ⟨e, he⟩ := hf
      simpa [gvt_step, he] using h
    · cases hl : env.loadData u with
      | error e => simpa [gvt_step, hl] using h
      | ok docs =>
        rw [gvt_step, hl]
        simp only [mem_keys_dictInsert]
        push_neg
        exact ⟨fun hc => huu hc.symm, h⟩

/-- A literal strips cleanly off its own concatenation. -/
lemma dropLit_append (ls cs : List Char) : dropLit ls (ls ++ cs) = some cs := by
  induction ls with
  | nil => rfl
  | cons l ls ih => simp [dropLit, ih]

/-- The second group of any successful match is a well-formed watch URL. -/
lemma matchAt_url {cs : List Char} {t l : String} {rest : List Char}
    (h : matchAt cs = some (t, l, rest)) : isYoutubeWatchUrl l = true := by
  unfold matchAt at h
  split at h
  · cases h
  · split at h
    · cases h
    · split at h
      · cases h
      · dsimp only at h
        split at h
        · cases h
        · next h4 =>
            simp only [Option.some.injEq, Prod.mk.injEq] at h
            obtain ⟨-, hl, -⟩ := h
            subst hl
            simp only [isYoutubeWatchUrl, String.toList, dropLit_append]
            rw [Bool.and_eq_true, List.all_eq_true]
            refine ⟨?_, fun x hx => List.mem_takeWhile_imp hx⟩
            rw [Bool.not_eq_true']
            exact Bool.of_not_eq_true h4

/-- One-step unfolding of the findall loop at positive fuel. -/
lemma findallAux_succ (fuel : Nat) (cs : List Char) :
    findallAux (fuel + 1) cs =
      match matchAt cs with
      | some (t, l, rest) => (t, l) :: findallAux fuel rest
      | none =>
        match cs with
        | [] => []
        | _ :: cs' => findallAux fuel cs' := rfl

/-- Every link collected by the findall loop is a well-formed watch URL. -/
lemma findallAux_url (fuel : Nat) :
    ∀ (cs : List Char) (p : String × String),
      p ∈ findallAux fuel cs → isYoutubeWatchUrl p.2 = true := by
  induction fuel with
  | zero => intro cs p hp; simp [findallAux] at hp
  | succ n ih =>
    intro cs p hp
    rw [findallAux_succ] at hp
    cases hm : matchAt cs with
    | some tlr =>
      rw [hm] at hp
      rcases tlr with ⟨t, l, rest⟩
      rcases List.mem_cons.mp hp with h | h
      · subst h; exact matchAt_url hm
      · exact ih rest p h
    | none =>
      rw [hm] at hp
      cases cs with
      | nil => cases hp
      | cons c cs' => exact ih cs' p hp

/-- Zipping the projections of a pair list recovers the list. -/
lemma zip_map_fst_snd {α β : Type} (l : List (α × β)) :
    List.zip (l.map Prod.fst) (l.map Prod.snd) = l := by
  induction l with
  | nil => rfl
  | cons p l ih => simp [List.zip_cons_cons, ih]

/-- Environment in which every external call succeeds. -/
def envHappy : Env where
  search := fun _ _ => Except.ok ["vid1"]
  loadData := fun _ => Except.ok ["transcript text"]
  llmComplete := fun _ => Except.ok (some "recipe text")
  createPage := fun _ _ => Except.ok (some "pg1")
  appendContent := fun _ _ => Except.ok true
  today := "2024-06-01"
  parent_id := "parent-1"

/-- Environment in which every external call raises. -/
def envAllFail : Env where
  search := fun _ _ => Except.error "boom"
  loadData := fun _ => Except.error "boom"
  llmComplete := fun _ => Except.error "boom"
  createPage := fun _ _ => Except.error "boom"
  appendContent := fun _ _ => Except.error "boom"
  today := "2024-06-01"
  parent_id := "parent-1"

/-- Environment whose create-page response lacks the nested page id. -/
def envNoPageId : Env where
  search := fun _ _ => Except.ok ["vid1"]
  loadData := fun _ => Except.ok ["transcript text"]
  llmComplete := fun _ => Except.ok (some "recipe text")
  createPage := fun _ _ => Except.ok none
  appendContent := fun _ _ => Except.ok true
  today := "2024-06-01"
  parent_id := "parent-1"

/-- Environment whose transcript fetch fails exactly on the URL `u2`. -/
def envC8 : Env where
  search := fun _ _ => Except.ok ["u1", "u2"]
  loadData := fun u => if u = "u2" then Except.error "no captions" else Except.ok ["line one"]
  llmComplete := fun _ => Except.ok (some "recipe text")
  createPage := fun _ _ => Except.ok (some "pg1")
  appendContent := fun _ _ => Except.ok true
  today := "2024-06-01"
  parent_id := "parent-1"

/-- C1: for every non-empty transcript mapping, the selector performs
exactly one LLM call, whose prompt is the fixed system instruction followed
by one labeled `Video: url` block per mapping entry, in mapping order, each
entry contributing exactly one block. -/
theorem c1_prompt_contains_each_transcript_once (env : Env) (ts : List (String × String))
    (h : ts ≠ []) :
    (select_best_recipe env ts).1 =
      [Event.llmCall (system_instruction ++ "\n\n" ++
        String.intercalate "\n\n" (ts.map fun p => "Video: " ++ p.1 ++ "\n" ++ p.2))] := by
  have hne : ts.isEmpty = false := by simpa [List.isEmpty_iff] using h
  simp only [select_best_recipe, hne, Bool.false_eq_true, if_false]
  cases env.llmComplete (system_instruction ++ "\n\n" ++
    String.intercalate "\n\n" (ts.map fun p => "Video: " ++ p.1 ++ "\n" ++ p.2)) <;> rfl

/-- Witness for C1 at a one-entry mapping. -/
theorem c1_prompt_witness :
    (select_best_recipe envHappy [("https://www.youtube.com/watch?v=vid1", "transcript text")]).1 =
      [Event.llmCall (system_instruction ++ "\n\n" ++
        String.intercalate "\n\n"
          ([("https://www.youtube.com/watch?v=vid1", "transcript text")].map
            fun p => "Video: " ++ p.1 ++ "\n" ++ p.2))] :=
  c1_prompt_contains_each_transcript_once envHappy
    [("https://www.youtube.com/watch?v=vid1", "transcript text")] (by decide)

/-- C4: when the create-page response lacks a nested page id, the publisher
logs the failure, returns normally, and never performs an append-content
call. -/
theorem c4_missing_page_id_no_append (env : Env) (name content : String)
    (h : env.createPage env.parent_id ("Dinner on " ++ env.today ++ ": " ++ name) =
      Except.ok none) :
    (create_notion_page env name content).1 =
      [Event.createPageCall env.parent_id ("Dinner on " ++ env.today ++ ": " ++ name),
       Event.printed "Failed to create Notion page."] ∧
    hasAppendContentCall (create_notion_page env name content).1 = false ∧
    (create_notion_page env name content).2 = Except.ok () := by
  refine ⟨?_, ?_, ?_⟩ <;>
    simp [create_notion_page, h, pyTruthy, hasAppendContentCall, isAppendEv]

/-- Witness for C4. -/
theorem c4_missing_page_id_witness :
    (create_notion_page envNoPageId "dish" "content").1 =
      [Event.createPageCall envNoPageId.parent_id
        ("Dinner on " ++ envNoPageId.today ++ ": " ++ "dish"),
       Event.printed "Failed to create Notion page."] ∧
    hasAppendContentCall (create_notion_page envNoPageId "dish" "content").1 = false ∧
    (create_notion_page envNoPageId "dish" "content").2 = Except.ok () :=
  c4_missing_page_id_no_append envNoPageId "dish" "content" rfl

/-- C5: every run of the publisher performs exactly one create-page call,
and its title is the string `Dinner on` followed by the current ISO date
and the dish name. -/
theorem c5_notion_title (env : Env) (name content : String) :
    (create_notion_page env name content).1.filter isCreatePageEv =
      [Event.createPageCall env.parent_id ("Dinner on " ++ env.today ++ ": " ++ name)] := by
  rcases hc : env.createPage env.parent_id ("Dinner on " ++ env.today ++ ": " ++ name)
    with e | pid
  · simp [create_notion_page, hc, isCreatePageEv]
  · rcases pid with _ | pid
    · simp [create_notion_page, hc, pyTruthy, isCreatePageEv]
    · by_cases hp : pid.isEmpty
      · simp [create_notion_page, hc, pyTruthy, hp, isCreatePageEv]
      · rcases ha : env.appendContent pid content with e2 | b
        · simp [create_notion_page, hc, pyTruthy, hp, ha, isCreatePageEv]
        · cases b <;> simp [create_notion_page, hc, pyTruthy, hp, ha, isCreatePageEv]

/-- C7: when the search API call raises, the search step logs the error and
returns the empty list instead of raising. -/
theorem c7_search_api_failure (env : Env) (q : String) (n : Nat) (e : String)
    (h : env.search q n = Except.error e) :
    search_youtube_videos_api env q n =
      ([Event.searchCall q n, Event.printed ("YouTube API request failed: " ++ e)], []) := by
  simp [search_youtube_videos_api, h]

/-- Witness for C7. -/
theorem c7_search_api_failure_witness :
    search_youtube_videos_api envAllFail "garlic butter shrimp" 3 =
      ([Event.searchCall "garlic butter shrimp" 3,
        Event.printed ("YouTube API request failed: " ++ "boom")], []) :=
  c7_search_api_failure envAllFail "garlic butter shrimp" 3 "boom" rfl

/-- C8: the key set of the transcript mapping is a subset of the input URL
list, and any URL whose fetch raises is absent from the mapping. -/
theorem c8_transcript_keys (env : Env) (video_urls : List String) :
    (∀ k ∈ keys (get_video_transcripts env video_urls).2, k ∈ video_urls) ∧
    ∀ url, (∃ e, env.loadData url = Except.error e) →
      url ∉ keys (get_video_transcripts env video_urls).2 := by
  constructor
  · intro k hk
    rcases gvt_keys_sub env video_urls ([], []) k hk with h | h
    · exact absurd h (by simp)
    · exact h
  · intro url hf
    exact gvt_fail_absent env url hf video_urls ([], []) (by simp)

/-- Witness for C8: the succeeding URL stays in range, the failing URL is
absent. -/
theorem c8_transcript_keys_witness :
    "u1" ∈ ["u1", "u2"] ∧
    "u2" ∉ keys (get_video_transcripts envC8 ["u1", "u2"]).2 :=
  ⟨(c8_transcript_keys envC8 ["u1", "u2"]).1 "u1" (by decide),
   (c8_transcript_keys envC8 ["u1", "u2"]).2 "u2" ⟨"no captions", rfl⟩⟩

/-- C10: the extractor returns equally long link and title lists, the i-th
link and i-th title come from the same match of the pattern, and every
returned link is the fixed watch-URL base followed by a nonempty id over
the class a-z A-Z 0-9 underscore dash. -/
theorem c10_extract_video_links_shape (s : String) :
    (extract_video_links s).1.length = (extract_video_links s).2.length ∧
    List.zip (extract_video_links s).2 (extract_video_links s).1 = findall s.toList ∧
    ∀ l ∈ (extract_video_links s).1, isYoutubeWatchUrl l = true := by
  refine ⟨by simp [extract_video_links], ?_, ?_⟩
  · simp only [extract_video_links]
    exact zip_map_fst_snd (findall s.toList)
  · intro l hl
    simp only [extract_video_links, List.mem_map] at hl
    obtain ⟨m, hm, rfl⟩ := hl
    exact findallAux_url _ _ _ hm

/-- Witness for C10 at a concrete response text. -/
theorem c10_extract_video_links_witness :
    isYoutubeWatchUrl "https://www.youtube.com/watch?v=abc123" = true :=
  (c10_extract_video_links_shape
      "**Title:** Pasta\n**Link:** https://www.youtube.com/watch?v=abc123").2.2
    "https://www.youtube.com/watch?v=abc123" (by decide)

/-- The search step performs no fetch, LLM, or Notion calls. -/
lemma search_trace_calls (env : Env) (q : String) (n : Nat) :
    hasFetchCall (search_youtube_videos_api env q n).1 = false ∧
    hasLlmCall (search_youtube_videos_api env q n).1 = false ∧
    hasCreatePageCall (search_youtube_videos_api env q n).1 = false ∧
    hasAppendContentCall (search_youtube_videos_api env q n).1 = false :=
  ⟨search_trace_any env q n isFetchEv (fun _ _ => rfl) (fun _ => rfl),
   search_trace_any env q n isLlmEv (fun _ _ => rfl) (fun _ => rfl),
   search_trace_any env q n isCreatePageEv (fun _ _ => rfl) (fun _ => rfl),
   search_trace_any env q n isAppendEv (fun _ _ => rfl) (fun _ => rfl)⟩

/-- The transcript step performs no LLM or Notion calls. -/
lemma gvt_trace_calls (env : Env) (urls : List String) :
    hasLlmCall (get_video_transcripts env urls).1 = false ∧
    hasCreatePageCall (get_video_transcripts env urls).1 = false ∧
    hasAppendContentCall (get_video_transcripts env urls).1 = false :=
  ⟨gvt_trace_any env isLlmEv (fun _ => rfl) (fun _ => rfl) urls ([], []),
   gvt_trace_any env isCreatePageEv (fun _ => rfl) (fun _ => rfl) urls ([], []),
   gvt_trace_any env isAppendEv (fun _ => rfl) (fun _ => rfl) urls ([], [])⟩

/-- The selector performs no fetch or Notion calls. -/
lemma select_trace_calls (env : Env) (ts : List (String × String)) :
    hasFetchCall (select_best_recipe env ts).1 = false ∧
    hasCreatePageCall (select_best_recipe env ts).1 = false ∧
    hasAppendContentCall (select_best_recipe env ts).1 = false :=
  ⟨select_trace_any env ts isFetchEv (fun _ => rfl) (fun _ => rfl),
   select_trace_any env ts isCreatePageEv (fun _ => rfl) (fun _ => rfl),
   select_trace_any env ts isAppendEv (fun _ => rfl) (fun _ => rfl)⟩

/-- When the LLM always answers with a truthy response carrying empty
text, the selector returns a normal but falsy result. -/
lemma select_falsy (env : Env) (ts : List (String × String))
    (hL : ∀ p, env.llmComplete p = Except.ok (some "")) :
    ∃ b, (select_best_recipe env ts).2 = Except.ok b ∧ pyTruthy b = false := by
  by_cases hts : ts.isEmpty
  · exact ⟨none, by simp [select_best_recipe, hts], rfl⟩
  · exact ⟨some "", by simp [select_best_recipe, hts, hL], rfl⟩

/-- C2: when the search step yields no URLs, the driver prints the
not-found message and terminates normally without any transcript fetch,
LLM call, or Notion call. -/
theorem c2_empty_search_terminates_early (env : Env) (name : String)
    (h : (search_youtube_videos_api env name 3).2 = []) :
    (main_run env name).1 =
      Event.printed ("Searching for YouTube videos on " ++ name ++ "...") ::
        (search_youtube_videos_api env name 3).1 ++
          [Event.printed "No videos found."] ∧
    hasFetchCall (main_run env name).1 = false ∧
    hasLlmCall (main_run env name).1 = false ∧
    hasCreatePageCall (main_run env name).1 = false ∧
    hasAppendContentCall (main_run env name).1 = false ∧
    (main_run env name).2 = Except.ok () := by
  have h2 : (search_youtube_videos_api env name 3).2.isEmpty = true := by rw [h]; rfl
  obtain ⟨hf, hl, hc, ha⟩ := search_trace_calls env name 3
  simp only [main_run, h2, if_true]
  refine ⟨by trivial, ?_, ?_, ?_, ?_, ?_⟩ <;>
    try simp_all [hasFetchCall, hasLlmCall, hasCreatePageCall, hasAppendContentCall,
      isFetchEv, isLlmEv, isCreatePageEv, isAppendEv]

/-- Witness for C2. -/
theorem c2_empty_search_witness :
    (main_run envAllFail "unobtainium soup").1 =
      Event.printed ("Searching for YouTube videos on " ++ "unobtainium soup" ++ "...") ::
        (search_youtube_videos_api envAllFail "unobtainium soup" 3).1 ++
          [Event.printed "No videos found."] ∧
    hasFetchCall (main_run envAllFail "unobtainium soup").1 = false ∧
    hasLlmCall (main_run envAllFail "unobtainium soup").1 = false ∧
    hasCreatePageCall (main_run envAllFail "unobtainium soup").1 = false ∧
    hasAppendContentCall (main_run envAllFail "unobtainium soup").1 = false ∧
    (main_run envAllFail "unobtainium soup").2 = Except.ok () :=
  c2_empty_search_terminates_early envAllFail "unobtainium soup" rfl

/-- C3: when every per-URL transcript fetch raises, the transcript mapping
is empty, the selector returns `none` without any LLM call, and the driver
terminates normally without LLM or Notion calls. -/
theorem c3_all_transcripts_fail (env : Env) (name : String)
    (h : ∀ url, ∃ e, env.loadData url = Except.error e) :
    (∀ urls, (get_video_transcripts env urls).2 = []) ∧
    (select_best_recipe env []).2 = Except.ok none ∧
    hasLlmCall (select_best_recipe env []).1 = false ∧
    hasLlmCall (main_run env name).1 = false ∧
    hasCreatePageCall (main_run env name).1 = false ∧
    hasAppendContentCall (main_run env name).1 = false ∧
    (main_run env name).2 = Except.ok () := by
  have hgv : ∀ urls, (get_video_transcripts env urls).2 = [] :=
    fun urls => gvt_allfail env h urls ([], [])
  refine ⟨hgv, rfl, rfl, ?_, ?_, ?_, ?_⟩ <;>
  · obtain ⟨sf, sl, sc, sa⟩ := search_trace_calls env name 3
    obtain ⟨gl, gc, ga⟩ := gvt_trace_calls env (search_youtube_videos_api env name 3).2
    by_cases hs : (search_youtube_videos_api env name 3).2.isEmpty
    · simp only [main_run, hs, if_true]
      try simp_all [hasFetchCall, hasLlmCall, hasCreatePageCall, hasAppendContentCall,
        isFetchEv, isLlmEv, isCreatePageEv, isAppendEv]
    · simp only [main_run, hs, Bool.false_eq_true, if_false,
        hgv (search_youtube_videos_api env name 3).2]
      try simp_all [select_best_recipe, hasFetchCall, hasLlmCall, hasCreatePageCall,
        hasAppendContentCall, isFetchEv, isLlmEv, isCreatePageEv, isAppendEv, pyTruthy]

/-- Environment whose transcript fetch always raises but whose other
services succeed. -/
def envC3w : Env where
  search := fun _ _ => Except.ok ["vid1"]
  loadData := fun _ => Except.error "no captions"
  llmComplete := fun _ => Except.ok (some "recipe text")
  createPage := fun _ _ => Except.ok (some "pg1")
  appendContent := fun _ _ => Except.ok true
  today := "2024-06-01"
  parent_id := "parent-1"

/-- Witness for C3. -/
theorem c3_all_transcripts_fail_witness :
    (get_video_transcripts envC3w ["u1"]).2 = [] ∧
    (select_best_recipe envC3w []).2 = Except.ok none ∧
    hasLlmCall (select_best_recipe envC3w []).1 = false ∧
    hasLlmCall (main_run envC3w "pad thai").1 = false ∧
    hasCreatePageCall (main_run envC3w "pad thai").1 = false ∧
    hasAppendContentCall (main_run envC3w "pad thai").1 = false ∧
    (main_run envC3w "pad thai").2 = Except.ok () := by
  have hmain := c3_all_transcripts_fail envC3w "pad thai"
    (fun url => ⟨"no captions", rfl⟩)
  exact ⟨hmain.1 ["u1"], hmain.2⟩

/-- Environment whose LLM call yields a truthy response with empty text. -/
def envEmptyText : Env where
  search := fun _ _ => Except.ok ["vid1"]
  loadData := fun _ => Except.ok ["transcript text"]
  llmComplete := fun _ => Except.ok (some "")
  createPage := fun _ _ => Except.ok (some "pg1")
  appendContent := fun _ _ => Except.ok true
  today := "2024-06-01"
  parent_id := "parent-1"

/-- C9: the driver's no-recipe abort tests falsiness, so an empty-string
recipe is treated like an absent one: the driver prints the no-suitable
message and terminates normally without any Notion call. -/
theorem c9_empty_recipe_falsy_abort (env : Env) (name : String)
    (hL : ∀ p, env.llmComplete p = Except.ok (some ""))
    (hne : (search_youtube_videos_api env name 3).2 ≠ []) :
    Event.printed "No suitable recipe found." ∈ (main_run env name).1 ∧
    hasCreatePageCall (main_run env name).1 = false ∧
    hasAppendContentCall (main_run env name).1 = false ∧
    (main_run env name).2 = Except.ok () := by
  have hs : (search_youtube_videos_api env name 3).2.isEmpty = false := by
    simpa [List.isEmpty_iff] using hne
  obtain ⟨b, hb, hpb⟩ := select_falsy env
    (get_video_transcripts env (search_youtube_videos_api env name 3).2).2 hL
  obtain ⟨sf, sl, sc, sa⟩ := search_trace_calls env name 3
  obtain ⟨gl, gc, ga⟩ := gvt_trace_calls env (search_youtube_videos_api env name 3).2
  obtain ⟨tf, tc, ta⟩ := select_trace_calls env
    (get_video_transcripts env (search_youtube_videos_api env name 3).2).2
  simp only [main_run, hs, Bool.false_eq_true, if_false, hb, hpb]
  refine ⟨by simp, ?_, ?_, ?_⟩ <;>
    try simp_all [hasCreatePageCall, hasAppendContentCall,
      isCreatePageEv, isAppendEv]

/-- Witness for C9. -/
theorem c9_empty_recipe_falsy_witness :
    Event.printed "No suitable recipe found." ∈ (main_run envEmptyText "ramen").1 ∧
    hasCreatePageCall (main_run envEmptyText "ramen").1 = false ∧
    hasAppendContentCall (main_run envEmptyText "ramen").1 = false ∧
    (main_run envEmptyText "ramen").2 = Except.ok () :=
  c9_empty_recipe_falsy_abort envEmptyText "ramen" (fun _ => rfl) (by decide)

/-- Environment in which only the LLM completion call raises. -/
def envLlmFail : Env where
  search := fun _ _ => Except.ok ["vid1"]
  loadData := fun _ => Except.ok ["transcript text"]
  llmComplete := fun _ => Except.error "LLM down"
  createPage := fun _ _ => Except.ok (some "pg1")
  appendContent := fun _ _ => Except.ok true
  today := "2024-06-01"
  parent_id := "parent-1"

/-- Environment in which only the append-content call raises. -/
def envAppendFail : Env where
  search := fun _ _ => Except.ok ["vid1"]
  loadData := fun _ => Except.ok ["transcript text"]
  llmComplete := fun _ => Except.ok (some "recipe text")
  createPage := fun _ _ => Except.ok (some "pg1")
  appendContent := fun _ _ => Except.error "boom"
  today := "2024-06-01"
  parent_id := "parent-1"

/-- C6 counterexample: in a run where search and both transcript fetches
succeed but the LLM completion call raises, the failure is not caught at
its call site and escapes the whole driver as a program-level error, so
not every external call failure is caught and converted. -/
theorem c6_llm_failure_propagates :
    (main_run envLlmFail "dish").2 = Except.error "LLM down" := rfl

/-- C6 amended: the search call and each per-URL transcript fetch are
caught at their call sites and converted into empty or absent results, but
failures raised by the LLM completion call or by either notes-service call
propagate out of the enclosing function uncaught. -/
theorem c6_catch_sites (env : Env) :
    (∀ q n e, env.search q n = Except.error e →
      (search_youtube_videos_api env q n).2 = [] ∧
      Event.printed ("YouTube API request failed: " ++ e) ∈
        (search_youtube_videos_api env q n).1) ∧
    (∀ urls url, (∃ e, env.loadData url = Except.error e) →
      url ∉ keys (get_video_transcripts env urls).2) ∧
    (∀ ts e, ts ≠ [] → env.llmComplete (select_prompt ts) = Except.error e →
      (select_best_recipe env ts).2 = Except.error e) ∧
    (∀ name content e,
      env.createPage env.parent_id ("Dinner on " ++ env.today ++ ": " ++ name) =
        Except.error e →
      (create_notion_page env name content).2 = Except.error e) ∧
    (∀ name content pid e, pid.isEmpty = false →
      env.createPage env.parent_id ("Dinner on " ++ env.today ++ ": " ++ name) =
        Except.ok (some pid) →
      env.appendContent pid content = Except.error e →
      (create_notion_page env name content).2 = Except.error e) := by
  refine ⟨?_, ?_, ?_, ?_, ?_⟩
  · intro q n e h
    simp [search_youtube_videos_api, h]
  · intro urls url hf
    exact gvt_fail_absent env url hf urls ([], []) (by simp)
  · intro ts e hne hc
    have hts : ts.isEmpty = false := by simpa [List.isEmpty_iff] using hne
    have hc' : env.llmComplete (system_instruction ++ "\n\n" ++
        String.intercalate "\n\n" (ts.map fun p => "Video: " ++ p.1 ++ "\n" ++ p.2)) =
        Except.error e := hc
    simp [select_best_recipe, hts, hc']
  · intro name content e h
    simp [create_notion_page, h]
  · intro name content pid e hpe hcp hap
    simp [create_notion_page, hcp, pyTruthy, hpe, hap]

/-- Witness for the amended C6 at concrete failing environments. -/
theorem c6_catch_sites_witness :
    (search_youtube_videos_api envAllFail "soup" 3).2 = [] ∧
    "u1" ∉ keys (get_video_transcripts envAllFail ["u1"]).2 ∧
    (select_best_recipe envAllFail [("u1", "t1")]).2 = Except.error "boom" ∧
    (create_notion_page envAllFail "dish" "content").2 = Except.error "boom" ∧
    (create_notion_page envAppendFail "dish" "content").2 = Except.error "boom" :=
  ⟨((c6_catch_sites envAllFail).1 "soup" 3 "boom" rfl).1,
   (c6_catch_sites envAllFail).2.1 ["u1"] "u1" ⟨"boom", rfl⟩,
   (c6_catch_sites envAllFail).2.2.1 [("u1", "t1")] "boom" (by decide) rfl,
   (c6_catch_sites envAllFail).2.2.2.1 "dish" "content" "boom" rfl,
   (c6_catch_sites envAppendFail).2.2.2.2 "dish" "content" "pg1" "boom" rfl rfl rfl⟩

end TubeChef
